import Mathlib

/-!
Verification development for the nametag STL generator (src/main.py).

The Python program is embedded shallowly:
* Python `str` values become Lean `String`; per-character operations work on
  `String.data` (the list of characters), matching Python iteration over a string.
* Python numbers are modelled by `PyNum`: Python `int` and Python `float` are
  distinct runtime types in the source (and the distinction is observable in the
  rendered script, e.g. `80` versus `80.0`), so the embedding keeps them apart.
  Python `float` values are modelled by `Rat`; the finite decimal literals the
  program actually parses are exactly representable there.
* Effectful steps (subprocess execution, filesystem tests) are modelled by
  passing the outcome of the external world as an explicit argument: the
  subprocess result becomes a `RunOutcome` value, the post-run existence of the
  output file becomes a `Bool`, and file writes become the written content.
-/

namespace Nametag

/-- Characters removed by Python `str.strip()` (whitespace: space, tab,
newline, carriage return, vertical tab, form feed). -/
def isPySpace (c : Char) : Bool :=
  c = ' ' || c = '\t' || c = '\n' || c = '\r' || c = '\x0b' || c = '\x0c'

/-- Python `s.strip()`: drop leading and trailing whitespace characters. -/
def pyStrip (s : String) : String :=
  String.mk (((s.data.dropWhile isPySpace).reverse.dropWhile isPySpace).reverse)

/-- A Python number as stored in the parameter dictionary: either a Python
`int` or a Python `float` (modelled by a rational). `DEFAULT_PARAMS` in
src/main.py mixes both kinds. -/
inductive PyNum where
  | int : Int → PyNum
  | float : Rat → PyNum
deriving DecidableEq

/-- Whether a `PyNum` is a Python `float` (as opposed to a Python `int`). -/
def PyNum.isFloat : PyNum → Bool
  | .int _ => false
  | .float _ => true

/-- A parameter dictionary: insertion-ordered association list, as a Python
`dict` from `str` keys to numbers. -/
abbrev Params := List (String × PyNum)

/-- `DEFAULT_PARAMS` from src/main.py lines 19-29.  The values `80`, `30`,
`3`, `8`, `3`, `4`, `3` are Python `int` literals; `1.5` and `1.2` are Python
`float` literals. -/
def DEFAULT_PARAMS : Params :=
  [("nametag_width", .int 80),
   ("nametag_height", .int 30),
   ("nametag_thickness", .int 3),
   ("text_size", .int 8),
   ("text_height", .float (1.5 : Rat)),
   ("ring_width", .int 3),
   ("ring_height", .float (1.2 : Rat)),
   ("mounting_hole_diameter", .int 4),
   ("corner_radius", .int 3)]

/-- The iteration order of `DEFAULT_PARAMS.keys()` used by `read_csv`. -/
def PARAM_KEYS : List String := DEFAULT_PARAMS.map Prod.fst

/-- One CSV row as produced by `csv.DictReader`: `row.get(key)` returns the
cell text when the column is present, and `None` (here `none`) otherwise. -/
abbrev Row := String → Option String

/-- Auxiliary lexer: consume a maximal run of ASCII digits, returning the
accumulated value, the number of digits consumed, and the remaining input. -/
def lexNat : Nat → Nat → List Char → Nat × Nat × List Char
  | acc, cnt, [] => (acc, cnt, [])
  | acc, cnt, c :: rest =>
    if c.isDigit then lexNat (acc * 10 + (c.toNat - 48)) (cnt + 1) rest
    else (acc, cnt, c :: rest)

/-- Python numeric-literal underscore rule: every underscore must sit between
two digits.  `prev` is the previous character, if any. -/
def underscoreOk : Option Char → List Char → Bool
  | _, [] => true
  | prev, c :: rest =>
    if c = '_' then
      (match prev, rest with
       | some p, d :: _ => p.isDigit && d.isDigit
       | _, _ => false) && underscoreOk (some c) rest
    else underscoreOk (some c) rest

/-- Exponent part of a float literal: optional sign, then at least one digit,
then end of input. -/
def parseExpPart (mant : Rat) (r : List Char) : Option Rat :=
  let sp : Int × List Char :=
    match r with
    | '+' :: r2 => (1, r2)
    | '-' :: r2 => (-1, r2)
    | _ => (1, r)
  let er := lexNat 0 0 sp.2
  if er.2.1 = 0 then none
  else
    match er.2.2 with
    | [] => some (mant * (10 : Rat) ^ (sp.1 * (er.1 : Int)))
    | _ => none

/-- Modelled from the behaviour of the Python builtin `float(s)` on finite
decimal literals: optional sign, digits with an optional fractional part (at
least one digit overall), optional exponent, with underscores allowed only
between digits.  The special values `inf`/`nan`, which have no counterpart in
`Rat`, are outside the scope of this embedding and no claim depends on them. -/
def parseFloat (s : String) : Option Rat :=
  if underscoreOk none s.data = false then none
  else
    let cs := s.data.filter (fun c => !(c == '_'))
    let sp : Int × List Char :=
      match cs with
      | '+' :: r => (1, r)
      | '-' :: r => (-1, r)
      | _ => (1, cs)
    let ipr := lexNat 0 0 sp.2
    let fpr : Nat × Nat × List Char :=
      match ipr.2.2 with
      | '.' :: r => lexNat 0 0 r
      | _ => (0, 0, ipr.2.2)
    if ipr.2.1 = 0 ∧ fpr.2.1 = 0 then none
    else
      let mant : Rat := (sp.1 : Rat) * ((ipr.1 : Rat) + (fpr.1 : Rat) / (10 : Rat) ^ fpr.2.1)
      match fpr.2.2 with
      | [] => some mant
      | 'e' :: r => parseExpPart mant r
      | 'E' :: r => parseExpPart mant r
      | _ => none

/-- Python `params[key] = v` on a dict whose key set already contains `key`:
replace the stored value, keeping insertion order. -/
def updateAssoc (l : Params) (k : String) (v : PyNum) : Params :=
  l.map (fun p => if p.1 = k then (k, v) else p)

/-- The body of the per-key loop of `read_csv` (src/main.py lines 213-225):
a missing cell, an empty-after-strip cell, or an unparsable cell leaves the
parameters unchanged; a parsable cell stores the parsed float. -/
def resolve_step (row : Row) (params : Params) (key : String) : Params :=
  match row key with
  | none => params
  | some raw_val =>
    let sval := pyStrip raw_val
    if sval = "" then params
    else
      match parseFloat sval with
      | none => params
      | some x => updateAssoc params key (PyNum.float x)

/-- Parameter resolution of `read_csv`: start from `DEFAULT_PARAMS.copy()`
and run the override loop over `DEFAULT_PARAMS.keys()`. -/
def resolve_params (row : Row) : Params :=
  PARAM_KEYS.foldl (resolve_step row) DEFAULT_PARAMS

/-- The effect of `resolve_step` on the single key it touches, expressed as a
function of the old value (used to state the override claims). -/
def override_step (row : Row) (key : String) (old : PyNum) : PyNum :=
  match row key with
  | none => old
  | some raw_val =>
    let sval := pyStrip raw_val
    if sval = "" then old
    else
      match parseFloat sval with
      | none => old
      | some x => PyNum.float x

/-- Python dictionary lookup `d.get(k)` on the association-list model:
the value stored at the first (and, for our dictionaries, only) binding of
the key. -/
def dictGet (l : Params) (k : String) : Option PyNum :=
  match l with
  | [] => none
  | (a, b) :: t => if k = a then some b else dictGet t k

/-- One generation request: the stripped display name and the fully resolved
parameter dictionary (the dict appended to `names_data`). -/
structure NameData where
  name : String
  params : Params
deriving DecidableEq

/-- `read_csv` from src/main.py lines 194-229, on the list of rows produced by
`csv.DictReader`: rows whose `name` cell is missing or empty after stripping
are skipped; every other row yields one request, in row order.  The function
is total: no row can abort it. -/
def read_csv (rows : List Row) : List NameData :=
  rows.filterMap (fun row =>
    match row "name" with
    | none => none
    | some raw_name =>
      if pyStrip raw_name = "" then none
      else some ⟨pyStrip raw_name, resolve_params row⟩)

/-- Whether a row survives the name check of `read_csv`. -/
def row_valid (row : Row) : Bool :=
  match row "name" with
  | none => false
  | some raw_name => !(pyStrip raw_name == "")

/-- The request built from a surviving row. -/
def mk_request (row : Row) : NameData :=
  ⟨(match row "name" with
    | none => ""
    | some raw_name => pyStrip raw_name),
   resolve_params row⟩

/-- `sanitize_filename` from src/main.py lines 149-154: substitute `_` for
every character that is not alphanumeric, space, hyphen or underscore (the
generator expression joined by `"".join`), then `strip()`, then
`replace(" ", "_")` (a single-character replacement, hence a character map). -/
def sanitize_filename (name : String) : String :=
  let safe_name := String.mk (name.data.map
    (fun c => if c.isAlphanum || c = ' ' || c = '-' || c = '_' then c else '_'))
  String.mk ((pyStrip safe_name).data.map (fun c => if c = ' ' then '_' else c))

/-- Whether a character is kept by the sanitizer, in the words of the spec:
alphanumeric, space, hyphen, or underscore. -/
def specSafeChar (c : Char) : Bool :=
  c.isAlphanum || c = ' ' || c = '-' || c = '_'

/-- Written from the spec sentence: replace every character that is not
alphanumeric, space, hyphen, or underscore with an underscore; trim; replace
every remaining space with an underscore. -/
def sanitize_filename_spec (name : String) : String :=
  let replaced := String.mk (name.data.map (fun c => if specSafeChar c then c else '_'))
  let trimmed := pyStrip replaced
  String.mk (trimmed.data.map (fun c => if c = ' ' then '_' else c))

/-- The display name Jane O-apostrophe-Brien; the apostrophe (code point 39)
is spelled via `Char.ofNat`. -/
def janeOBrien : String := "Jane O" ++ String.singleton (Char.ofNat 39) ++ "Brien"

/-- Fractional decimal digits of `num / den` (with `num < den` at call sites),
bounded by `fuel` (17 significant fractional digits, as Python repr never
prints more); stops early when the remainder reaches zero. -/
def fracDigitsAux : Nat → Nat → Nat → List Char
  | 0, _, _ => []
  | _ + 1, _, 0 => []
  | fuel + 1, den, num =>
    let num10 := num * 10
    Char.ofNat (48 + num10 / den) :: fracDigitsAux fuel den (num10 % den)

/-- Modelled from the Python builtin `str` on a `float`: sign, integer part,
decimal point, fractional digits (at least one, `0` for an integral float).
This covers the finite decimals the program manipulates; scientific notation
for extreme magnitudes is outside the scope of this embedding. -/
def pyFloatRepr (q : Rat) : String :=
  let sgn := if q < 0 then "-" else ""
  let n := q.num.natAbs
  let d := q.den
  let frac := fracDigitsAux 17 d (n % d)
  sgn ++ toString (n / d) ++ "." ++ (if frac = [] then "0" else String.mk frac)

/-- Python `str`/f-string interpolation of a stored parameter value: an `int`
prints without a decimal point, a `float` with one. -/
def pyNumRepr : PyNum → String
  | .int n => toString n
  | .float q => pyFloatRepr q

/-- The fixed tail of the OpenSCAD template (src/main.py lines 71-143): the
text after the last interpolated parameter, byte for byte.  Literal braces of
the rendered script (written as doubled braces in the Python f-string) are
spelled with character escapes. -/
def scadBody : String :=
  "// Main nametag module\n" ++
  "module nametag() \x7b\n" ++
  "    difference() \x7b\n" ++
  "        union() \x7b\n" ++
  "            // Main body: rectangle on one side, semicircle on the other\n" ++
  "            nametag_body(nametag_width, nametag_height, nametag_thickness, corner_radius);\n" ++
  "            \n" ++
  "            // Elevated ring around the border\n" ++
  "            elevated_ring(nametag_width, nametag_height, nametag_thickness, ring_width, ring_height, corner_radius);\n" ++
  "            \n" ++
  "            // Raised text on top\n" ++
  "            translate([nametag_width/2, nametag_height/2, nametag_thickness])\n" ++
  "                linear_extrude(height = text_height)\n" ++
  "                    text(name, size = text_size, halign = \"center\", valign = \"center\", font = \"Liberation Sans:style=Bold\");\n" ++
  "        \x7d\n" ++
  "        \n" ++
  "        // Mounting hole in the center of the circular side\n" ++
  "        translate([nametag_width, nametag_height/2, -0.5])\n" ++
  "            cylinder(h = nametag_thickness + ring_height + text_height + 1, d = mounting_hole_diameter, $fn = 30);\n" ++
  "    \x7d\n" ++
  "\x7d\n" ++
  "\n" ++
  "// Module to create the main body shape (rectangle + semicircle)\n" ++
  "module nametag_body(width, height, thickness, radius) \x7b\n" ++
  "    hull() \x7b\n" ++
  "        // Rectangular side with rounded corners (left side)\n" ++
  "        translate([radius, radius, 0])\n" ++
  "            cylinder(r = radius, h = thickness, $fn = 30);\n" ++
  "        translate([radius, height - radius, 0])\n" ++
  "            cylinder(r = radius, h = thickness, $fn = 30);\n" ++
  "        \n" ++
  "        // Semicircle on the right side\n" ++
  "        translate([width, height/2, 0])\n" ++
  "            cylinder(r = height/2, h = thickness, $fn = 60);\n" ++
  "    \x7d\n" ++
  "\x7d\n" ++
  "\n" ++
  "// Module to create the elevated ring\n" ++
  "module elevated_ring(width, height, thickness, ring_w, ring_h, radius) \x7b\n" ++
  "    difference() \x7b\n" ++
  "        // Outer shape (same as body but elevated)\n" ++
  "        translate([0, 0, thickness])\n" ++
  "            hull() \x7b\n" ++
  "                // Rectangular side with rounded corners\n" ++
  "                translate([radius, radius, 0])\n" ++
  "                    cylinder(r = radius, h = ring_h, $fn = 30);\n" ++
  "                translate([radius, height - radius, 0])\n" ++
  "                    cylinder(r = radius, h = ring_h, $fn = 30);\n" ++
  "                \n" ++
  "                // Semicircle on the right side\n" ++
  "                translate([width, height/2, 0])\n" ++
  "                    cylinder(r = height/2, h = ring_h, $fn = 60);\n" ++
  "            \x7d\n" ++
  "        \n" ++
  "        // Inner cutout (smaller shape)\n" ++
  "        translate([0, 0, thickness - 0.5])\n" ++
  "            hull() \x7b\n" ++
  "                // Inner rectangular side\n" ++
  "                translate([radius + ring_w, radius + ring_w, 0])\n" ++
  "                    cylinder(r = radius, h = ring_h + 1, $fn = 30);\n" ++
  "                translate([radius + ring_w, height - radius - ring_w, 0])\n" ++
  "                    cylinder(r = radius, h = ring_h + 1, $fn = 30);\n" ++
  "                \n" ++
  "                // Inner semicircle (smaller radius)\n" ++
  "                translate([width, height/2, 0])\n" ++
  "                    cylinder(r = height/2 - ring_w, h = ring_h + 1, $fn = 60);\n" ++
  "            \x7d\n" ++
  "    \x7d\n" ++
  "\x7d\n" ++
  "\n" ++
  "// Generate the nametag\n" ++
  "nametag();\n"

/-- `create_temp_scad` from src/main.py lines 55-146, modelled as returning
the exact content written to the temporary file: the fixed f-string template
with the display name (inserted literally, no quote escaping) and the nine
parameter values substituted at their fixed positions. -/
def create_temp_scad (name : String) (params : Params) : String :=
  let pv := fun (k : String) => pyNumRepr ((dictGet params k).getD (PyNum.int 0))
  "// Auto-generated nametag for: " ++ name ++ "\n" ++
  "\n" ++
  "// Parameters\n" ++
  "name = \"" ++ name ++ "\";\n" ++
  "nametag_width = " ++ pv "nametag_width" ++ ";\n" ++
  "nametag_height = " ++ pv "nametag_height" ++ ";\n" ++
  "nametag_thickness = " ++ pv "nametag_thickness" ++ ";\n" ++
  "text_size = " ++ pv "text_size" ++ ";\n" ++
  "text_height = " ++ pv "text_height" ++ ";\n" ++
  "ring_width = " ++ pv "ring_width" ++ ";\n" ++
  "ring_height = " ++ pv "ring_height" ++ ";\n" ++
  "mounting_hole_diameter = " ++ pv "mounting_hole_diameter" ++ ";\n" ++
  "corner_radius = " ++ pv "corner_radius" ++ ";\n" ++
  "\n" ++
  scadBody

/-- The fixed output directory constant from src/main.py line 15. -/
def OUTPUT_DIR : String := "generated_nametags"

/-- `os.path.join` for the arguments used here (a non-empty directory without
a trailing separator and a relative file name). -/
def os_path_join (a b : String) : String := a ++ "/" ++ b

/-- Path of the temporary script file (src/main.py line 160). -/
def temp_scad_path (output_dir name : String) : String :=
  os_path_join output_dir ("temp_" ++ sanitize_filename name ++ ".scad")

/-- Path of the target model file (src/main.py line 161). -/
def output_stl_path (output_dir name : String) : String :=
  os_path_join output_dir (sanitize_filename name ++ ".stl")

/-- Result of the `subprocess.run` call inside `generate_stl`, supplied by the
environment: the process completed with an exit code and captured stderr, or
the 60-second timeout fired (`subprocess.TimeoutExpired`), or launching the
process raised some other exception. -/
inductive RunOutcome where
  | completed (returncode : Int) (stderr : String)
  | timedOut
  | launchError (msg : String)
deriving DecidableEq

/-- The per-record console marker printed by `generate_stl`. -/
inductive Marker where
  | success
  | failed
  | timeout
  | error
deriving DecidableEq

/-- Observable outcome of one `generate_stl` call: its boolean return value,
the printed marker, whether the temporary script was deleted, the two paths it
targets, and the script content it wrote. -/
structure GenResult where
  ok : Bool
  marker : Marker
  tempRemoved : Bool
  temp_path : String
  output_path : String
  script : String
deriving DecidableEq

/-- `generate_stl` from src/main.py lines 157-191.  The external world enters
through `run` (what `subprocess.run` did) and `outputExists` (whether
`os.path.exists(output_stl)` holds after the run).  The function is total:
`subprocess.TimeoutExpired` and every other exception of the invocation are
caught inside and classified, never propagated. -/
def generate_stl (openscad_path name : String) (params : Params) (output_dir : String)
    (run : RunOutcome) (outputExists : Bool) : GenResult :=
  let safe_name := sanitize_filename name
  let temp_scad := os_path_join output_dir ("temp_" ++ safe_name ++ ".scad")
  let output_stl := os_path_join output_dir (safe_name ++ ".stl")
  let script := create_temp_scad name params
  let cmd := [openscad_path, "-o", output_stl, temp_scad]
  match run with
  | .completed returncode _stderr =>
    if returncode = 0 ∧ outputExists = true then
      { ok := true, marker := .success, tempRemoved := true,
        temp_path := temp_scad, output_path := output_stl, script := script }
    else
      { ok := false, marker := .failed, tempRemoved := false,
        temp_path := temp_scad, output_path := output_stl, script := script }
  | .timedOut =>
    { ok := false, marker := .timeout, tempRemoved := false,
      temp_path := temp_scad, output_path := output_stl, script := script }
  | .launchError _ =>
    let _ := cmd
    { ok := false, marker := .error, tempRemoved := false,
      temp_path := temp_scad, output_path := output_stl, script := script }

/-- Outcome of probing one candidate with `[path, "--version"]`
(src/main.py line 45): the process completed with an exit code, or one of the
three exception classes caught on line 49 was raised. -/
inductive ProbeOutcome where
  | completed (returncode : Int)
  | fileNotFound
  | timedOut
  | permissionDenied
deriving DecidableEq

/-- The fixed ordered candidate list of `find_openscad`
(src/main.py lines 34-41). -/
def possible_paths : List String :=
  ["openscad",
   "/usr/bin/openscad",
   "/usr/local/bin/openscad",
   "C:\\Program Files\\OpenSCAD\\openscad.exe",
   "C:\\Program Files (x86)\\OpenSCAD\\openscad.exe",
   "/Applications/OpenSCAD.app/Contents/MacOS/OpenSCAD"]

/-- The probing loop of `find_openscad`: return the current candidate on exit
code zero, continue past a nonzero exit code and past each caught exception,
return `none` once the list is exhausted. -/
def find_openscad_go (probe : String → ProbeOutcome) : List String → Option String
  | [] => none
  | p :: rest =>
    match probe p with
    | .completed rc => if rc = 0 then some p else find_openscad_go probe rest
    | _ => find_openscad_go probe rest

/-- `find_openscad` from src/main.py lines 32-52, with the behaviour of the
version-query subprocess supplied as the oracle `probe`. -/
def find_openscad (probe : String → ProbeOutcome) : Option String :=
  find_openscad_go probe possible_paths

/-- Body of the main processing loop (src/main.py lines 280-285), on the
accumulator (successful, failed, loop index); the index feeds the `world`
oracle that decides each invocation's run outcome and output-file existence. -/
def main_step (openscad_path : String) (world : Nat → RunOutcome × Bool)
    (acc : Nat × Nat × Nat) (data : NameData) : Nat × Nat × Nat :=
  let w := world acc.2.2
  if (generate_stl openscad_path data.name data.params OUTPUT_DIR w.1 w.2).ok then
    (acc.1 + 1, acc.2.1, acc.2.2 + 1)
  else
    (acc.1, acc.2.1 + 1, acc.2.2 + 1)

/-- The main processing loop: fold `main_step` over the requests starting from
`successful = 0`, `failed = 0`; returns the final (successful, failed) pair
reported in the summary banner (src/main.py lines 277-292). -/
def main_loop (openscad_path : String) (reqs : List NameData)
    (world : Nat → RunOutcome × Bool) : Nat × Nat :=
  let t := reqs.foldl (main_step openscad_path world) (0, 0, 0)
  (t.1, t.2.1)

/-- Whether the generation of the request at a given loop position succeeds. -/
def record_ok (openscad_path : String) (world : Nat → RunOutcome × Bool)
    (p : Nat × NameData) : Bool :=
  (generate_stl openscad_path p.2.name p.2.params OUTPUT_DIR (world p.1).1 (world p.1).2).ok

/-- The per-record console markers of one run, in processing order: one marker
per request, so the length of this list is the number of attempted records. -/
def run_markers (openscad_path : String) (reqs : List NameData)
    (world : Nat → RunOutcome × Bool) : List Marker :=
  reqs.enum.map (fun p =>
    (generate_stl openscad_path p.2.name p.2.params OUTPUT_DIR (world p.1).1 (world p.1).2).marker)

/-- The empty output directory, as a map from paths to file contents. -/
def fs_empty : String → Option String := fun _ => none

/-- Writing a file: later writes to the same path overwrite earlier ones. -/
def fs_write (fs : String → Option String) (path content : String) :
    String → Option String :=
  fun p => if p = path then some content else fs p

/-- The output directory after a run that processed the display names
A-slash-B and then A-space-B, each write landing at its target path. -/
def fs_after_collision : String → Option String :=
  fs_write (fs_write fs_empty (output_stl_path OUTPUT_DIR "A/B") "model of A/B")
    (output_stl_path OUTPUT_DIR "A B") "model of A B"

/-- Fixture row: a valid name and a non-numeric override of `text_size`. -/
def bobRow : Row := fun k =>
  if k = "name" then some "Bob"
  else if k = "text_size" then some "abc"
  else none

/-- Fixture request list for the loop claims. -/
def sampleReqs : List NameData := [⟨"Bob", DEFAULT_PARAMS⟩]

/-- Fixture world in which every invocation times out. -/
def timeoutWorld : Nat → RunOutcome × Bool := fun _ => (RunOutcome.timedOut, false)

/-- Unfolding `updateAssoc` over a cons cell. -/
theorem updateAssoc_cons (x : String) (y : PyNum) (t : Params) (k : String) (v : PyNum) :
    updateAssoc ((x, y) :: t) k v =
      (if x = k then (k, v) else (x, y)) :: updateAssoc t k v := rfl

/-- Unfolding `dictGet` over a cons cell. -/
theorem dictGet_cons (a : String) (b : PyNum) (t : Params) (k : String) :
    dictGet ((a, b) :: t) k = if k = a then some b else dictGet t k := rfl

/-- Updating one key of an association list changes only that key, replacing
its stored value. -/
theorem dictGet_updateAssoc (l : Params) (k : String) (v : PyNum) (k' : String) :
    dictGet (updateAssoc l k v) k' =
      if k' = k then (dictGet l k').map (fun _ => v) else dictGet l k' := by
  induction l with
  | nil => simp [updateAssoc, dictGet]
  | cons a t ih =>
    obtain ⟨x, y⟩ := a
    rw [updateAssoc_cons]
    by_cases hx : x = k
    · subst hx
      rw [if_pos rfl, dictGet_cons, dictGet_cons]
      by_cases hk : k' = x
      · simp [hk]
      · simp [hk, ih]
    · rw [if_neg hx, dictGet_cons, dictGet_cons]
      by_cases hk : k' = x
      · subst hk; simp [hx]
      · simp [hk, ih]

/-- `resolve_step` touches only its key, transforming the stored value by
`override_step`. -/
theorem dictGet_resolve_step (row : Row) (p : Params) (key k' : String) :
    dictGet (resolve_step row p key) k' =
      if k' = key then (dictGet p k').map (override_step row key) else dictGet p k' := by
  have hid : ∀ o : Option PyNum, o.map (fun old => old) = o := fun o => by cases o <;> rfl
  cases hr : row key with
  | none =>
    have h1 : resolve_step row p key = p := by simp [resolve_step, hr]
    have h2 : override_step row key = fun old => old := by
      funext old; simp [override_step, hr]
    rw [h1, h2, hid]
    split <;> rfl
  | some raw =>
    by_cases hz : pyStrip raw = ""
    · have h1 : resolve_step row p key = p := by simp [resolve_step, hr, hz]
      have h2 : override_step row key = fun old => old := by
        funext old; simp [override_step, hr, hz]
      rw [h1, h2, hid]
      split <;> rfl
    · cases hp : parseFloat (pyStrip raw) with
      | none =>
        have h1 : resolve_step row p key = p := by simp [resolve_step, hr, hz, hp]
        have h2 : override_step row key = fun old => old := by
          funext old; simp [override_step, hr, hz, hp]
        rw [h1, h2, hid]
        split <;> rfl
      | some x =>
        have h1 : resolve_step row p key = updateAssoc p key (PyNum.float x) := by
          simp [resolve_step, hr, hz, hp]
        have h2 : override_step row key = fun _ => PyNum.float x := by
          funext old; simp [override_step, hr, hz, hp]
        rw [h1, h2, dictGet_updateAssoc]

/-- Folding the override loop over keys not containing `key` leaves the
binding of `key` unchanged. -/
theorem dictGet_fold_not_mem (row : Row) :
    ∀ (ks : List String) (p : Params) (key : String), key ∉ ks →
      dictGet (ks.foldl (resolve_step row) p) key = dictGet p key := by
  intro ks
  induction ks with
  | nil => intro p key _; rfl
  | cons k t ih =>
    intro p key h
    have h1 : key ≠ k := fun hh => h (hh ▸ List.mem_cons_self k t)
    have h2 : key ∉ t := fun hh => h (List.mem_cons_of_mem k hh)
    rw [List.foldl_cons, ih _ _ h2, dictGet_resolve_step, if_neg h1]

/-- Folding the override loop over a duplicate-free key list containing `key`
applies `override_step` once to the binding of `key`. -/
theorem dictGet_fold_mem (row : Row) :
    ∀ (ks : List String) (p : Params) (key : String), ks.Nodup → key ∈ ks →
      dictGet (ks.foldl (resolve_step row) p) key =
        (dictGet p key).map (override_step row key) := by
  intro ks
  induction ks with
  | nil => intro p key _ h; cases h
  | cons k t ih =>
    intro p key hnd hmem
    have hk : k ∉ t := (List.nodup_cons.mp hnd).1
    have ht : t.Nodup := (List.nodup_cons.mp hnd).2
    rw [List.foldl_cons]
    rcases List.mem_cons.mp hmem with heq | hin
    · subst heq
      rw [dictGet_fold_not_mem row t _ _ hk, dictGet_resolve_step, if_pos rfl]
    · have hne : key ≠ k := fun hh => hk (hh ▸ hin)
      rw [ih _ _ ht hin, dictGet_resolve_step, if_neg hne]

/-- The binding of each recognized key in the resolved parameters is the
default transformed by the override step of that key. -/
theorem resolve_params_dictGet (row : Row) (key : String) (h : key ∈ PARAM_KEYS) :
    dictGet (resolve_params row) key =
      (dictGet DEFAULT_PARAMS key).map (override_step row key) :=
  dictGet_fold_mem row PARAM_KEYS DEFAULT_PARAMS key (by decide) h

/-- A key listed in the key projection of an association list has a binding. -/
theorem dictGet_isSome_of_mem_keys :
    ∀ (l : Params) (key : String), key ∈ l.map Prod.fst → (dictGet l key).isSome = true := by
  intro l
  induction l with
  | nil => intro key h; cases h
  | cons a t ih =>
    intro key h
    obtain ⟨x, y⟩ := a
    rcases List.mem_cons.mp h with heq | hin
    · simp [dictGet, heq]
    · by_cases hx : key = x
      · simp [dictGet, hx]
      · simpa [dictGet, hx] using ih key hin

/-- `read_csv` keeps exactly the valid rows, in order, mapping each to its
request. -/
theorem read_csv_eq (rows : List Row) :
    read_csv rows = (rows.filter row_valid).map mk_request := by
  induction rows with
  | nil => rfl
  | cons r t ih =>
    rw [read_csv, List.filterMap_cons, List.filter_cons]
    cases hn : r "name" with
    | none =>
      have hv : row_valid r = false := by simp [row_valid, hn]
      simpa [hn, hv] using ih
    | some raw =>
      by_cases hz : pyStrip raw = ""
      · have hv : row_valid r = false := by simp [row_valid, hn, hz]
        simpa [hn, hz, hv] using ih
      · have hv : row_valid r = true := by simp [row_valid, hn, hz]
        have hmk : mk_request r = ⟨pyStrip raw, resolve_params r⟩ := by
          simp [mk_request, hn]
        simpa [hn, hz, hv, hmk] using ih

/-- The lengths of the kept and the dropped rows of any boolean split sum to
the total. -/
theorem length_filter_split {α : Type} (l : List α) (p : α → Bool) :
    (l.filter p).length + (l.filter (fun x => !(p x))).length = l.length := by
  induction l with
  | nil => rfl
  | cons a t ih => cases h : p a <;> simp [List.filter_cons, h] <;> omega

/-- The kept and the dropped counts of any boolean split sum to the total. -/
theorem countP_split {α : Type} (l : List α) (p : α → Bool) :
    l.countP p + l.countP (fun x => !(p x)) = l.length := by
  induction l with
  | nil => rfl
  | cons a t ih => cases h : p a <;> simp [List.countP_cons, h] <;> omega

/-- An element found by an index lookup is a member of the list. -/
theorem mem_of_getElem?_aux {α : Type} :
    ∀ (l : List α) (i : Nat) (a : α), l[i]? = some a → a ∈ l := by
  intro l
  induction l with
  | nil => intro i a h; simp at h
  | cons x t ih =>
    intro i a h
    cases i with
    | zero =>
      rw [List.getElem?_cons_zero] at h
      cases h
      exact List.mem_cons_self x t
    | succ n =>
      rw [List.getElem?_cons_succ] at h
      exact List.mem_cons_of_mem x (ih n a h)

/-- A list containing an element that fails the predicate has strictly fewer
matches than elements. -/
theorem countP_lt_length_of_mem {α : Type} (l : List α) (p : α → Bool) (x : α)
    (hx : x ∈ l) (hp : p x = false) : l.countP p < l.length := by
  induction l with
  | nil => cases hx
  | cons a t ih =>
    rcases List.mem_cons.mp hx with heq | hin
    · subst heq
      rw [List.countP_cons, hp]
      simpa using Nat.lt_succ_of_le (List.countP_le_length p)
    · rw [List.countP_cons]
      cases ha : p a
      · simpa using Nat.lt_succ_of_lt (ih hin)
      · simpa using Nat.succ_lt_succ (ih hin)

/-- The probing loop returns the first candidate whose probe completes with
exit code zero. -/
theorem find_go_eq (probe : String → ProbeOutcome) :
    ∀ l : List String, find_openscad_go probe l =
      l.find? (fun p => decide (probe p = ProbeOutcome.completed 0)) := by
  intro l
  induction l with
  | nil => rfl
  | cons p rest ih =>
    rw [find_openscad_go, List.find?]
    cases hp : probe p with
    | completed rc =>
      by_cases h0 : rc = 0
      · subst h0; simp [hp]
      · simp [hp, h0, ih]
    | fileNotFound => simp [hp, ih]
    | timedOut => simp [hp, ih]
    | permissionDenied => simp [hp, ih]

/-- The probing loop returns `none` exactly when no candidate probes to exit
code zero. -/
theorem find_go_none (probe : String → ProbeOutcome) :
    ∀ l : List String, (find_openscad_go probe l).isNone =
      l.all (fun p => !(decide (probe p = ProbeOutcome.completed 0))) := by
  intro l
  induction l with
  | nil => rfl
  | cons p rest ih =>
    rw [find_openscad_go, List.all_cons]
    cases hp : probe p with
    | completed rc =>
      by_cases h0 : rc = 0
      · subst h0; simp [hp]
      · simp [hp, h0, ih]
    | fileNotFound => simp [hp, ih]
    | timedOut => simp [hp, ih]
    | permissionDenied => simp [hp, ih]

/-- Unrolling the main loop: starting from counters `(s, f)` at index `i`, the
loop adds the number of succeeding and failing records and advances the index
by the number of records; every record contributes to exactly one counter. -/
theorem foldl_main_step (op : String) (world : Nat → RunOutcome × Bool) :
    ∀ (reqs : List NameData) (s f i : Nat),
      reqs.foldl (main_step op world) (s, f, i) =
        (s + (List.enumFrom i reqs).countP (record_ok op world),
         f + (List.enumFrom i reqs).countP (fun p => !(record_ok op world p)),
         i + reqs.length) := by
  intro reqs
  induction reqs with
  | nil => intro s f i; simp [List.enumFrom]
  | cons d t ih =>
    intro s f i
    rw [List.foldl_cons]
    have hms : main_step op world (s, f, i) d =
        if record_ok op world (i, d) then (s + 1, f, i + 1) else (s, f + 1, i + 1) := rfl
    rw [hms]
    cases h : record_ok op world (i, d) <;>
      simp [h, ih, List.enumFrom, List.countP_cons] <;> omega

/-- The summary counters are the match counts of the success predicate over
the indexed request list. -/
theorem main_loop_counts (op : String) (reqs : List NameData)
    (world : Nat → RunOutcome × Bool) :
    main_loop op reqs world =
      (reqs.enum.countP (record_ok op world),
       reqs.enum.countP (fun p => !(record_ok op world p))) := by
  rw [main_loop, List.enum, foldl_main_step]
  simp

/-- C1: for every display name, the sanitized base name is obtained by
replacing every character that is not alphanumeric, space, hyphen, or
underscore with an underscore, then trimming, then replacing every remaining
space with an underscore; in particular the display name Jane O-apostrophe-
Brien sanitizes to Jane_O_Brien. -/
theorem C1_sanitize_pipeline :
    (∀ name : String, sanitize_filename name = sanitize_filename_spec name) ∧
    sanitize_filename janeOBrien = "Jane_O_Brien" := by
  refine ⟨fun name => ?_, by decide⟩
  rfl

/-- C5: rows whose name field is missing or empty/whitespace-only after
trimming are excluded, without any error (`read_csv` is total); the output is
exactly the valid rows in their original order, so its length is the total
row count minus the number of invalid rows. -/
theorem C5_invalid_rows_skipped (rows : List Row) :
    read_csv rows = (rows.filter row_valid).map mk_request ∧
    (read_csv rows).length =
      rows.length - (rows.filter (fun r => !(row_valid r))).length := by
  refine ⟨read_csv_eq rows, ?_⟩
  rw [read_csv_eq, List.length_map]
  have h := length_filter_split rows row_valid
  omega

/-- C7: the Locator probes its fixed ordered candidate list and returns the
first candidate whose version query exits with code zero; every non-zero or
exceptional probe is swallowed and probing continues; `none` comes back
exactly when no candidate at all probes to exit code zero, i.e. only after
the whole list is exhausted. -/
theorem C7_locator_first_match (probe : String → ProbeOutcome) :
    find_openscad probe =
      possible_paths.find? (fun p => decide (probe p = ProbeOutcome.completed 0)) ∧
    (find_openscad probe).isNone =
      possible_paths.all (fun p => !(decide (probe p = ProbeOutcome.completed 0))) :=
  ⟨find_go_eq probe possible_paths, find_go_none probe possible_paths⟩

/-- C8: the distinct display names A-slash-B and A-space-B both sanitize to
A_B, so both requests target the same output path; writing both in one run
leaves exactly one surviving file, with the later content. -/
theorem C8_collision_overwrite :
    sanitize_filename "A/B" = "A_B" ∧
    sanitize_filename "A B" = "A_B" ∧
    output_stl_path OUTPUT_DIR "A/B" = output_stl_path OUTPUT_DIR "A B" ∧
    (generate_stl "openscad" "A/B" DEFAULT_PARAMS OUTPUT_DIR RunOutcome.timedOut false).output_path =
      (generate_stl "openscad" "A B" DEFAULT_PARAMS OUTPUT_DIR RunOutcome.timedOut false).output_path ∧
    fs_after_collision (output_stl_path OUTPUT_DIR "A/B") = some "model of A B" ∧
    ∀ q, (fs_after_collision q).isSome = (q == output_stl_path OUTPUT_DIR "A B") := by
  have hp : output_stl_path OUTPUT_DIR "A/B" = output_stl_path OUTPUT_DIR "A B" := by decide
  refine ⟨by decide, by decide, hp, by decide, by decide, fun q => ?_⟩
  by_cases h : q = output_stl_path OUTPUT_DIR "A B"
  · simp [fs_after_collision, fs_write, h]
  · have h1 : q ≠ output_stl_path OUTPUT_DIR "A/B" := by rw [hp]; exact h
    have h2 : (q == output_stl_path OUTPUT_DIR "A B") = false :=
      beq_eq_false_iff_ne.mpr h
    simp [fs_after_collision, fs_write, fs_empty, h, h1, h2]

/-- C9: rendering the template for the same pair of display name and
parameter set twice produces byte-identical script content; the renderer is
embedded as a pure function of exactly those two inputs. -/
theorem C9_render_deterministic (name : String) (params : Params)
    (name2 : String) (params2 : Params) (hn : name = name2) (hp : params = params2) :
    create_temp_scad name params = create_temp_scad name2 params2 := by
  rw [hn, hp]

/-- Witness for C9 at a concrete input. -/
theorem C9_witness :
    ("Jane" = "Jane" ∧ DEFAULT_PARAMS = DEFAULT_PARAMS) ∧
    create_temp_scad "Jane" DEFAULT_PARAMS = create_temp_scad "Jane" DEFAULT_PARAMS :=
  ⟨⟨rfl, rfl⟩, C9_render_deterministic "Jane" DEFAULT_PARAMS "Jane" DEFAULT_PARAMS rfl rfl⟩

/-- C2: for every row and every recognized parameter key, the default has a
binding, and the resolved value is the default transformed by the override
step — which overrides exactly when the cell is present, non-empty after
stripping, and parses as a float, and otherwise retains the default; and a
row with a valid name is always emitted (prepended to the output), whatever
its parameter cells hold: no row is aborted. -/
theorem C2_override_resolution (row : Row) :
    (∀ key, key ∈ PARAM_KEYS →
      (dictGet DEFAULT_PARAMS key).isSome = true ∧
      dictGet (resolve_params row) key =
        (dictGet DEFAULT_PARAMS key).map (override_step row key)) ∧
    (∀ rest, read_csv (row :: rest) =
      if row_valid row = true then mk_request row :: read_csv rest else read_csv rest) := by
  constructor
  · intro key hk
    exact ⟨dictGet_isSome_of_mem_keys DEFAULT_PARAMS key hk,
      resolve_params_dictGet row key hk⟩
  · intro rest
    rw [read_csv_eq, read_csv_eq, List.filter_cons]
    cases h : row_valid row <;> simp [h]

/-- Witness for C2: a row with name Bob and the non-numeric override
text_size = abc, at the key text_size. -/
theorem C2_witness :
    "text_size" ∈ PARAM_KEYS ∧
    ((dictGet DEFAULT_PARAMS "text_size").isSome = true ∧
     dictGet (resolve_params bobRow) "text_size" =
       (dictGet DEFAULT_PARAMS "text_size").map (override_step bobRow "text_size")) ∧
    read_csv [bobRow] =
      (if row_valid bobRow = true then mk_request bobRow :: read_csv [] else read_csv []) :=
  ⟨by decide, (C2_override_resolution bobRow).1 "text_size" (by decide),
   (C2_override_resolution bobRow).2 []⟩

/-- C3: for every generation attempt, the outcome is success exactly when the
process completed with exit code zero and the target file exists afterwards,
in which case (and only then) the temporary script is deleted; a timeout is
classified as a Timeout failure and a launch exception as an Error failure,
both inside `generate_stl` (which is total, so nothing propagates to the
caller). -/
theorem C3_outcome_classification (op name : String) (params : Params)
    (dir : String) (run : RunOutcome) (ex : Bool) (msg : String) :
    ((generate_stl op name params dir run ex).ok = true ↔
      (∃ se, run = RunOutcome.completed 0 se) ∧ ex = true) ∧
    (generate_stl op name params dir run ex).tempRemoved =
      (generate_stl op name params dir run ex).ok ∧
    (generate_stl op name params dir RunOutcome.timedOut ex).ok = false ∧
    (generate_stl op name params dir RunOutcome.timedOut ex).marker = Marker.timeout ∧
    (generate_stl op name params dir (RunOutcome.launchError msg) ex).ok = false ∧
    (generate_stl op name params dir (RunOutcome.launchError msg) ex).marker = Marker.error := by
  refine ⟨?_, ?_, rfl, rfl, rfl, rfl⟩
  · cases run with
    | completed rc se =>
      by_cases h : rc = 0 ∧ ex = true
      · obtain ⟨h0, hex⟩ := h
        subst h0
        simp [generate_stl, hex]
      · constructor
        · intro hok
          exfalso
          revert hok
          simp [generate_stl, h]
        · rintro ⟨⟨se2, hse⟩, hex⟩
          cases hse
          simp [generate_stl, hex]
    | timedOut => simp [generate_stl]
    | launchError m => simp [generate_stl]
  · cases run with
    | completed rc se =>
      by_cases h : rc = 0 ∧ ex = true <;> simp [generate_stl, h]
    | timedOut => rfl
    | launchError m => rfl

/-- C4 counterexample: the row with only a valid name yields a ParameterSet
whose nametag_width binding is the compiled-in Python int 80, which is not a
floating-point value — refuting the claim that every value of every key is
floating-point. -/
theorem C4_counterexample :
    (read_csv [bobRow]).length = 1 ∧
    ((read_csv [bobRow])[0]?.map (fun r => dictGet r.params "nametag_width")) =
      some (some (PyNum.int 80)) ∧
    PyNum.isFloat (PyNum.int 80) = false := by
  refine ⟨by decide, by decide, rfl⟩

/-- C4 as amended: every ParameterSet produced by the Record Reader binds all
nine keys (none absent), and each stored value is either a floating-point row
override or the compiled-in default of that key (which may be a Python int). -/
theorem C4_params_complete (rows : List Row) (req : NameData) (key : String)
    (hreq : req ∈ read_csv rows) (hkey : key ∈ PARAM_KEYS) :
    ∃ v, dictGet req.params key = some v ∧
      (PyNum.isFloat v = true ∨ dictGet DEFAULT_PARAMS key = some v) := by
  rw [read_csv_eq] at hreq
  obtain ⟨row, _hrow, rfl⟩ := List.mem_map.mp hreq
  have hres : dictGet (resolve_params row) key =
      (dictGet DEFAULT_PARAMS key).map (override_step row key) :=
    resolve_params_dictGet row key hkey
  have hsome := dictGet_isSome_of_mem_keys DEFAULT_PARAMS key hkey
  obtain ⟨d, hd⟩ := Option.isSome_iff_exists.mp hsome
  have hcase : override_step row key d = d ∨
      PyNum.isFloat (override_step row key d) = true := by
    cases hr : row key with
    | none => left; simp [override_step, hr]
    | some raw =>
      by_cases hz : pyStrip raw = ""
      · left; simp [override_step, hr, hz]
      · cases hp : parseFloat (pyStrip raw) with
        | none => left; simp [override_step, hr, hz, hp]
        | some x => right; simp [override_step, hr, hz, hp, PyNum.isFloat]
  refine ⟨override_step row key d, ?_, ?_⟩
  · show dictGet (resolve_params row) key = _
    rw [hres, hd]
    rfl
  · rcases hcase with h1 | h1
    · exact Or.inr (by rw [hd, h1])
    · exact Or.inl h1

/-- Witness for the amended C4 at a concrete produced request and key. -/
theorem C4_witness :
    (mk_request bobRow ∈ read_csv [bobRow] ∧ "nametag_width" ∈ PARAM_KEYS) ∧
    (∃ v, dictGet (mk_request bobRow).params "nametag_width" = some v ∧
      (PyNum.isFloat v = true ∨ dictGet DEFAULT_PARAMS "nametag_width" = some v)) :=
  ⟨⟨by
      have hv : row_valid bobRow = true := by decide
      simp [read_csv_eq, List.filter_cons, hv],
    by decide⟩,
   C4_params_complete [bobRow] (mk_request bobRow) "nametag_width"
     (by
       have hv : row_valid bobRow = true := by decide
       simp [read_csv_eq, List.filter_cons, hv])
     (by decide)⟩

/-- C6: a request whose invocation times out is marked Timeout and is not a
success; the marker list covers every request (all records are attempted,
whatever each one's outcome), the two counters exhaust the requests, and the
success count stays strictly below the total. -/
theorem C6_timeout_isolated (op : String) (reqs : List NameData)
    (world : Nat → RunOutcome × Bool) (i : Nat) (b : Bool)
    (hw : world i = (RunOutcome.timedOut, b)) (hi : i < reqs.length) :
    (run_markers op reqs world)[i]? = some Marker.timeout ∧
    (run_markers op reqs world).length = reqs.length ∧
    (main_loop op reqs world).1 + (main_loop op reqs world).2 = reqs.length ∧
    (main_loop op reqs world).1 < reqs.length := by
  have hmark : (run_markers op reqs world)[i]? = some Marker.timeout := by
    rw [run_markers, List.getElem?_map, List.getElem?_enum,
      List.getElem?_eq_getElem hi]
    simp [hw, generate_stl]
  have hlen : (run_markers op reqs world).length = reqs.length := by
    simp [run_markers]
  have hmem : (i, reqs[i]) ∈ reqs.enum := by
    apply mem_of_getElem?_aux reqs.enum i
    rw [List.getElem?_enum, List.getElem?_eq_getElem hi]
    rfl
  have hfalse : record_ok op world (i, reqs[i]) = false := by
    simp [record_ok, hw, generate_stl]
  have hlt := countP_lt_length_of_mem reqs.enum (record_ok op world) _ hmem hfalse
  have hsum := countP_split reqs.enum (record_ok op world)
  rw [main_loop_counts]
  refine ⟨hmark, hlen, ?_, ?_⟩
  · simpa [List.enum_length] using hsum
  · simpa [List.enum_length] using hlt

/-- Witness for C6: one request, a world in which every invocation times out. -/
theorem C6_witness :
    (timeoutWorld 0 = (RunOutcome.timedOut, false) ∧ 0 < sampleReqs.length) ∧
    ((run_markers "openscad" sampleReqs timeoutWorld)[0]? = some Marker.timeout ∧
     (run_markers "openscad" sampleReqs timeoutWorld).length = sampleReqs.length ∧
     (main_loop "openscad" sampleReqs timeoutWorld).1 +
       (main_loop "openscad" sampleReqs timeoutWorld).2 = sampleReqs.length ∧
     (main_loop "openscad" sampleReqs timeoutWorld).1 < sampleReqs.length) :=
  ⟨⟨rfl, by decide⟩,
   C6_timeout_isolated "openscad" sampleReqs timeoutWorld 0 false rfl (by decide)⟩

/-- C10: after the main loop over the requests produced by the Record Reader,
the success counter plus the failure counter equals the number of requests:
every request is counted exactly once, as a success or as a failure. -/
theorem C10_counters_partition (op : String) (rows : List Row)
    (world : Nat → RunOutcome × Bool) :
    (main_loop op (read_csv rows) world).1 + (main_loop op (read_csv rows) world).2 =
      (read_csv rows).length := by
  rw [main_loop_counts]
  have h := countP_split (read_csv rows).enum (record_ok op world)
  simpa [List.enum_length] using h

end Nametag
